import Mathlib

set_option linter.unusedVariables false

/-!
# Verification of the eVTOL aircraft data-extraction program

Shallow embedding of the two scraping modules
(`src/evtolnews_scrape/evtolnews_scrapefuncs.py`, Site A, and
`src/transportup_scrape/transportup_funcs.py`, Site B) and proofs about them.

Conventions of the embedding:
* A parsed HTML document (BeautifulSoup object) is modelled by a structure
  holding exactly the observations the embedded functions make of it
  (the `h1` tags and their children, the `p` tags, the `i` tags).
* Python exceptions that can escape a function are modelled with
  `Except String α`, the error string naming the Python exception class.
  Functions all of whose exceptions are caught internally are total.
* A function body that reads a module-level (global) name takes that
  global binding as an explicit `Option` argument: `none` models the state
  of the module as written, in which the name is never bound, so reading
  it raises `NameError`.
* Network fetching (`requests.get` inside `get_bs4`) is an external
  collaborator per the specification; loops that fetch are parametrised
  by an oracle giving each fetch/scrape attempt's outcome.
-/

/-! ## Python string primitives used by the source -/

/-- ASCII lower-casing of one character, the effect of Python `str.lower()`
on the ASCII inputs these rules receive. -/
def asciiLower (c : Char) : Char :=
  if 'A' ≤ c ∧ c ≤ 'Z' then Char.ofNat (c.toNat + 32) else c

/-- Python `x.lower()` (ASCII model). -/
def pyLower (s : String) : String := String.mk (s.data.map asciiLower)

/-- `startsL pat l`: the character list `l` starts with `pat`. -/
def startsL : List Char → List Char → Bool
  | [], _ => true
  | _ :: _, [] => false
  | a :: as, b :: bs => a = b && startsL as bs

/-- `containsL l pat`: `pat` occurs contiguously inside `l`. -/
def containsL (l pat : List Char) : Bool :=
  match l with
  | [] => pat.isEmpty
  | _ :: rest => startsL pat l || containsL rest pat

/-- Python's substring test `sub in s`. -/
def pyIn (sub s : String) : Bool := containsL s.data sub.data

/-! ## Site A (evtol.news) document model -/

/-- A direct child of an `h1` element as BeautifulSoup iterates it:
either a navigable string or a nested tag. `''.join` over the children
raises `TypeError` as soon as it meets a tag. -/
inductive H1Child
  | text (s : String)
  | tag
deriving DecidableEq, Repr

/-- `''.join(children)`: `some` of the concatenation when every child is a
string, `none` when a nested tag makes the join raise `TypeError`. -/
def joinTexts : List H1Child → Option String
  | [] => some ""
  | H1Child.text s :: rest => (joinTexts rest).map (s ++ ·)
  | H1Child.tag :: _ => none

/-- A `<p>` element of a Site A detail page, observed through the fields
the embedded rules inspect: whether `tag.find('strong')` is truthy, and
the page's first `<a>` descendant inside it (`none`: no anchor;
`some none`: an anchor whose `href` attribute is absent, so `.get('href')`
is `None`; `some (some h)`: an anchor with `href="h"`). -/
structure PNode where
  hasStrong : Bool
  firstAnchorHref : Option (Option String)
deriving DecidableEq, Repr

/-- A parsed Site A detail page: the children of each `h1` tag in document
order, and the `p` tags in document order. -/
structure ADoc where
  h1 : List (List H1Child)
  ptags : List PNode
deriving DecidableEq, Repr

/-! ## Site A field extractors (evtolnews_scrapefuncs.py) -/

/-- `get_acname` (evtolnews_scrapefuncs.py lines 152–166): joins the
children of the first `h1` tag. `h1s[0]` raising `IndexError` (no `h1`)
and the join raising `TypeError` (a nested tag among the children) are
both caught by the function's own `except`, which returns `'N/A'`. -/
def get_acname (soup : ADoc) : String :=
  match soup.h1 with
  | [] => "N/A"
  | c :: _ =>
      match joinTexts c with
      | some s => s
      | none => "N/A"

/-- `get_acstatus` (evtolnews_scrapefuncs.py lines 168–179): `'defunct'`
when that substring occurs in `get_acname`'s result, else `'active'`.
The source's own `except` arm (returning `'N/A'`) is unreachable:
`get_acname` catches every exception internally and the substring test on
two strings cannot raise, so the embedding is total. -/
def get_acstatus (soup : ADoc) : String :=
  if pyIn "defunct" (get_acname soup) then "defunct" else "active"

/-- The loop of `get_coredata` over an enumerated slice of `p` tags:
first tag with a truthy `find('strong')` wins, yielding its enumeration
index and the tag; falling off the slice returns the string `'error'`. -/
def coredataLoop : Nat → List PNode → (Nat × PNode) ⊕ String
  | _, [] => Sum.inr "error"
  | i, t :: rest => if t.hasStrong then Sum.inl (i, t) else coredataLoop (i + 1) rest

/-- `get_coredata` (evtolnews_scrapefuncs.py lines 185–210): scans
`acptags[:2]`, i.e. only the first two `p` tags, for the first containing
a `strong` child; returns `(index, tag)` or the sentinel `'error'`. -/
def get_coredata (soup : ADoc) : (Nat × PNode) ⊕ String :=
  coredataLoop 0 (soup.ptags.take 2)

/-- `get_acextlink` (evtolnews_scrapefuncs.py lines 280–299), on the result
of `get_coredata`.
* `core_data` a string (the `'error'` sentinel, or any string: indexing and
  attribute access on a string raise inside the `try`): `weblink = 'N/A'`.
* `core_data` a pair: `core_data[1].a` is the node's first anchor.
  No anchor: `.get` on `None` raises `AttributeError`, caught, `'N/A'`.
  Anchor whose `href` is `None` or `''` (falsy): the `if` guard fails,
  `weblink` is never assigned, and the `return weblink` after the
  `try/except` raises `UnboundLocalError`, which nothing catches.
  Anchor with a truthy `href`: that link is returned. -/
def get_acextlink (core_data : (Nat × PNode) ⊕ String) : Except String String :=
  match core_data with
  | Sum.inr _ => Except.ok "N/A"
  | Sum.inl (_, node) =>
      match node.firstAnchorHref with
      | none => Except.ok "N/A"
      | some none => Except.error "UnboundLocalError"
      | some (some h) =>
          if h = "" then Except.error "UnboundLocalError" else Except.ok h

/-! ## Site B (transportup) document model and `get_devstage` -/

/-- An `<i>` element of a Site B page, observed through the three substring
tests `get_devstage` applies to `tag.prettify()`: whether the rendered tag
contains `'data-x-icon'`, whether it contains `'color'`, and whether it
contains `'0%'`. -/
structure ITag where
  hasXIcon : Bool
  hasColor : Bool
  hasZeroPct : Bool
deriving DecidableEq, Repr

/-- A parsed Site B detail page: its `i` tags in document order. -/
structure TUDoc where
  itags : List ITag
deriving DecidableEq, Repr

/-- The 5-entry `stages_dict` of `get_devstage`; `none` models a
`KeyError` on any other key. -/
def stages_dict (i : Nat) : Option String :=
  [ "preliminary design", "prototype build", "flight testing",
    "certification", "commercially operating" ].get? i

/-- The second loop of `get_devstage`: the enumeration index of the first
eligible icon (has a `color` attribute and no `0%` feature), `none` when
the loop finishes without a match and `stage_ind` stays unbound. -/
def findStageLoop : Nat → List ITag → Option Nat
  | _, [] => none
  | i, t :: rest =>
      if t.hasColor && !t.hasZeroPct then some i else findStageLoop (i + 1) rest

/-- `get_devstage` (transportup_funcs.py lines 67–111). The body never
reads its parameter `soup`: the line `itags = acsoup.find_all('i')` reads
the module-level name `acsoup` — which the module never binds — and that
line sits *before* the `try`, so the resulting `NameError` propagates to
the caller. `acsoupGlobal` is the module-level binding (`none` as the
module is written). When a global soup exists, every failure inside the
`try` (unbound `stage_ind` when no icon qualifies, `KeyError` when the
matching index exceeds 4) is caught and converted to `None`. -/
def get_devstage (acsoupGlobal : Option TUDoc) (soup : TUDoc) :
    Except String (Option String) :=
  match acsoupGlobal with
  | none => Except.error "NameError"
  | some acsoup =>
      let dev_stages := acsoup.itags.filter (fun t => t.hasXIcon)
      Except.ok ((findStageLoop 0 dev_stages).bind stages_dict)

/-! ## Incremental merge engine -/

/-- A row of a results table: the `link` cell plus all other scraped
fields, the latter abstracted by a type parameter — the claims about the
merge loops inspect only the link column and the rows' identity. -/
structure MRow (α : Type) where
  link : String
  data : α
deriving DecidableEq, Repr

/-- The shared shape of the two ingestion loops (`scrape_appendnew`,
evtolnews_scrapefuncs.py lines 496–571, and the loop of `get_tu_acdata`,
transportup_funcs.py lines 233–288). Per iteration over the enumerated
link list: when the link already occurs in the current table's `link`
column, nothing happens (`else: None` / the guard fails); otherwise the
try-block fetches the page and assembles the row's fields — `scrapeRow ind
link` is its outcome, `none` when `requests.get` or any extraction step
raised (the `except` arms print and skip), `some d` the assembled fields —
and on success a row whose `link` cell is the loop's link is appended. -/
def mergeLoop (scrapeRow : Nat → String → Option α) :
    Nat → List String → List (MRow α) → List (MRow α)
  | _, [], results => results
  | ind, link :: rest, results =>
      let results' :=
        if (results.map MRow.link).contains link then
          results
        else
          match scrapeRow ind link with
          | some d => results ++ [⟨link, d⟩]
          | none => results
      mergeLoop scrapeRow (ind + 1) rest results'

/-- `scrape_appendnew` (evtolnews_scrapefuncs.py lines 457–580): runs the
merge loop over the slice `links[start_ind:stop_ind]` of the input
directory's link column and returns the appended `results_df`.
`scrapeRow` abstracts the try-block of one iteration (the
`categories[start_ind + ind]` lookup, the network fetch and the Site A
field extractors). -/
def scrape_appendnew (scrapeRow : Nat → String → Option α)
    (start_ind stop_ind : Nat) (links : List String)
    (results_df : List (MRow α)) : List (MRow α) :=
  mergeLoop scrapeRow 0 ((links.drop start_ind).take (stop_ind - start_ind))
    results_df

/-- `get_tu_acdata` (transportup_funcs.py lines 210–288): runs the merge
loop over the whole directory link column. The first component is the
final value of the local `results_df` the loop built; the second is the
Python return value — the source has no `return` statement, so the
function returns `None`, modelled as `none`. -/
def get_tu_acdata (scrapeRow : Nat → String → Option α)
    (directory_links : List String) (results_df : List (MRow α)) :
    List (MRow α) × Option (List (MRow α)) :=
  (mergeLoop scrapeRow 0 directory_links results_df, none)

/-- `check_updates` (evtolnews_scrapefuncs.py lines 589–598 and, line for
line identical, transportup_funcs.py lines 298–307). -/
def check_updates (current : List α) (df_tocheck : List β) : String :=
  if df_tocheck.length < current.length then
    "NOT up to date. " ++ toString (current.length - df_tocheck.length)
      ++ " new aircraft exist"
  else
    "Your df is up to date. No update needed."

/-- `check_mostna` (transportup_funcs.py lines 332–339 and, identically,
evtolnews_scrapefuncs.py lines 622–629). The body iterates
`nas.items()` — the module-level name `nas`, which neither module ever
binds — and never reads the parameter `na_dict`. `nasGlobal` is the
module-level binding (`none` as the modules are written, raising
`NameError`). With a global dict present, the rows whose count equals
`max(nas.values())` are returned in iteration order; on an empty dict the
loop body (and with it the `max` call) never runs, so the result is `[]`. -/
def check_mostna (nasGlobal : Option (List (String × Nat)))
    (na_dict : List (String × Nat)) : Except String (List (String × Nat)) :=
  match nasGlobal with
  | none => Except.error "NameError"
  | some nas =>
      Except.ok (nas.filter (fun p => p.2 = (nas.map Prod.snd).foldl max 0))

/-! ## Null-column pruning (`drop_nullcols`) -/

/-- A table observed through what `drop_nullcols` inspects: its column
names and, per row and column, whether the cell is missing (`isna`). -/
structure NDF where
  cols : List String
  rows : List (List (String × Bool))
deriving DecidableEq, Repr

/-- `len(cdf[cdf[col].isna()])`: how many rows are missing column `c`. -/
def naCount (rows : List (List (String × Bool))) (c : String) : Nat :=
  rows.countP (fun r => (r.lookup c).getD false)

/-- The collection test of `drop_nullcols`'s loop:
`len(cdf[cdf[df_col].isna()]) / len(cdf) >= nullperc`, the float quotient
modelled exactly in `ℚ`. -/
def nullcolTest (cdf : NDF) (nullperc : ℚ) (c : String) : Bool :=
  decide (nullperc ≤ (naCount cdf.rows c : ℚ) / (cdf.rows.length : ℚ))

/-- `drop_nullcols` (transportup_funcs.py lines 349–367). The body never
reads its parameter `df`: both the column scan and the final
`cdf.drop(columns=..., inplace=True)` name the module-level `cdf`, which
the module never binds — `cdfGlobal` is that binding (`none` as written,
raising `NameError`). With a global table present, a column is collected
when its missing fraction meets the threshold (`nullcolTest`); dividing
by an empty table raises `ZeroDivisionError` at the first column.
Returns the mutated global table and the list of dropped column names. -/
def drop_nullcols (cdfGlobal : Option NDF) (df : NDF) (nullperc : ℚ) :
    Except String (NDF × List String) :=
  match cdfGlobal with
  | none => Except.error "NameError"
  | some cdf =>
      if cdf.cols ≠ [] ∧ cdf.rows.length = 0 then
        Except.error "ZeroDivisionError"
      else
        let null_cols := cdf.cols.filter (nullcolTest cdf nullperc)
        Except.ok
          ({ cols := cdf.cols.filter (fun c => !(null_cols.contains c)),
             rows := cdf.rows.map
               (fun r => r.filter (fun p => !(null_cols.contains p.1))) },
           null_cols)

/-! ## Backfill (`update_na`) and its dataframe model -/

/-- A dataframe row: its index label and its cells by column name. -/
structure DRow where
  indexVal : String
  cells : List (String × String)
deriving DecidableEq, Repr

/-- A dataframe observed through what `update_na` inspects: the index
name (`none` for pandas' unnamed default range index), the column names
and the rows. -/
structure DFrame where
  indexName : Option String
  columns : List String
  rows : List DRow
deriving DecidableEq, Repr

/-- The table `df.set_index('link', inplace=True)` leaves behind: keyed
by the values of the `link` column, which moves out of the columns. -/
def reKeyed (df : DFrame) : DFrame :=
  { indexName := some "link",
    columns := df.columns.filter (fun c => c ≠ "link"),
    rows := df.rows.map (fun r =>
      { indexVal := ((r.cells.lookup "link").getD ""),
        cells := r.cells.filter (fun p => p.1 ≠ "link") }) }

/-- `df.set_index('link', inplace=True)`: re-keys the table by the `link`
column; pandas raises `KeyError` when no such column exists. -/
def set_index_link (df : DFrame) : Except String DFrame :=
  if df.columns.contains "link" then Except.ok (reKeyed df)
  else Except.error "KeyError"

/-- The keys of the `func_dict` literal built inside `update_na`
(evtolnews_scrapefuncs.py lines 674–678). -/
def funcKeys : List String :=
  ["specs", "resources", "oem", "model", "aircraft_website", "address", "about"]

/-- The comprehension `nadict = {col: func_dict[col] for col in cols_list}`:
looking up a column outside `func_dict`'s seven keys raises `KeyError`. -/
def buildNadict (funcVals : String → String) :
    List String → Except String (List (String × String))
  | [] => Except.ok []
  | c :: cs =>
      if funcKeys.contains c then
        (buildNadict funcVals cs).map (fun t => (c, funcVals c) :: t)
      else
        Except.error "KeyError"

/-- `df.update(naupdate)` for a one-row `naupdate` indexed by `idx`:
overwrites, in each row of `df` whose index label is `idx`, every cell
whose column occurs among `newvals`; other cells and columns absent from
`df` are untouched. -/
def dfUpdate (df : DFrame) (idx : String) (newvals : List (String × String)) :
    DFrame :=
  { df with
    rows := df.rows.map (fun r =>
      if r.indexVal = idx then
        { r with cells := r.cells.map (fun p =>
            match newvals.lookup p.1 with
            | some v => (p.1, v)
            | none => p) }
      else r) }

/-- `update_na` (evtolnews_scrapefuncs.py lines 635–693). In source
order: when the index name is not `'link'` the table is silently re-keyed
in place by `set_index('link', inplace=True)` (no fail-fast check);
then the page is fetched and the seven extractors build `func_dict` —
`scraped` is that step's outcome, `.error` when the network fetch or an
extractor raised (nothing here catches), `.ok funcVals` the per-key
values; then `nadict` is built (a `KeyError` for a column outside the
seven keys propagates); finally `df.update` overwrites the named cells of
the row keyed by `aircraft_link`. The first component is the mutated
table; the second is the Python return value — the source has no `return`
statement, so the function returns `None`. -/
def update_na (cols_list : List String) (aircraft_link : String)
    (scraped : Except String (String → String)) (df : DFrame) :
    Except String (DFrame × Option DFrame) :=
  match (if df.indexName ≠ some "link" then set_index_link df else Except.ok df) with
  | Except.error e => Except.error e
  | Except.ok df1 =>
      match scraped with
      | Except.error e => Except.error e
      | Except.ok funcVals =>
          match buildNadict funcVals cols_list with
          | Except.error e => Except.error e
          | Except.ok nadict =>
              Except.ok (dfUpdate df1 aircraft_link nadict, none)

/-! ## Categorical normalisation (`assign_autonlevel`) -/

/-- `assign_autonlevel` (transportup_funcs.py lines 482–512): ordered
substring tests over the lower-cased input (`str(x)` on a string is the
identity), first match wins, fall-through to `'undisclosed'`. -/
def assign_autonlevel (x : String) : String :=
  let xl := pyLower x
  if pyIn "semi" xl && !(pyIn "pilot" xl) then "semi autonomous"
  else if pyIn "autonomous" xl && !(pyIn "semi" xl) then "autonomous"
  else if pyIn "pilot" xl && pyIn "semi" xl then "piloted semi autonomous"
  else if xl = "piloted" then "piloted"
  else "undisclosed"

/-! ## Specification-side definition for the core-data rule

`coredataSpec` is written from the spec's words — "first of the first two
text-block elements that contains a bold-label child; returns (position,
node)", else the sentinel `error` — to be compared with `get_coredata`,
which is translated from the source. -/

/-- The core-data rule as the specification states it. -/
def coredataSpec (ps : List PNode) : (Nat × PNode) ⊕ String :=
  match ps with
  | [] => Sum.inr "error"
  | [p0] => if p0.hasStrong then Sum.inl (0, p0) else Sum.inr "error"
  | p0 :: p1 :: _ =>
      if p0.hasStrong then Sum.inl (0, p0)
      else if p1.hasStrong then Sum.inl (1, p1)
      else Sum.inr "error"

/-! ## Concrete tables for the `drop_nullcols` scenario

A five-row table whose column `X` is missing in 80% of rows and whose
column `Y` is missing in 60% of rows, the scenario of the null-column
pruning property. -/

/-- The module-level table `cdf` for the pruning scenario. -/
def cdf0 : NDF :=
  ⟨["X", "Y"],
   [[("X", true),  ("Y", true)],
    [("X", true),  ("Y", true)],
    [("X", true),  ("Y", true)],
    [("X", true),  ("Y", false)],
    [("X", false), ("Y", false)]]⟩

/-- `cdf0` after dropping column `X`. -/
def cdf0AfterDrop : NDF :=
  ⟨["Y"],
   [[("Y", true)], [("Y", true)], [("Y", true)], [("Y", false)],
    [("Y", false)]]⟩

/-- A table visibly different from `cdf0`, passed as the `df` argument to
show the argument plays no part. -/
def dfArg0 : NDF := ⟨["Z"], [[("Z", false)]]⟩

/-! ## Sanity evaluations of the embedding -/

example : get_acname ⟨[], []⟩ = "N/A" := by decide
example : get_acname ⟨[[H1Child.text "A3 ", H1Child.text "(defunct)"]], []⟩
    = "A3 (defunct)" := by decide
example : get_acstatus ⟨[], []⟩ = "active" := by decide
example : get_acstatus ⟨[[H1Child.text "A3 (defunct)"]], []⟩ = "defunct" := by decide
example : get_coredata ⟨[], [⟨false, none⟩, ⟨true, some (some "x")⟩, ⟨true, none⟩]⟩
    = Sum.inl (1, ⟨true, some (some "x")⟩) := by decide
example : get_coredata ⟨[], [⟨false, none⟩, ⟨false, none⟩, ⟨true, none⟩]⟩
    = Sum.inr "error" := by decide
example : get_acextlink (Sum.inl (0, ⟨true, some none⟩))
    = Except.error "UnboundLocalError" := rfl
example : get_devstage none ⟨[]⟩ = Except.error "NameError" := rfl
example : get_devstage (some ⟨[⟨true, false, true⟩, ⟨true, true, false⟩]⟩) ⟨[]⟩
    = Except.ok (some "prototype build") := rfl
example : assign_autonlevel "Semi-Autonomous" = "semi autonomous" := by decide
example : assign_autonlevel "Piloted, semi-autonomous" = "piloted semi autonomous" := by
  decide
example : assign_autonlevel "foobar" = "undisclosed" := by decide
example : check_updates [0, 1, 2] ([] : List Nat)
    = "NOT up to date. 3 new aircraft exist" := by decide
example : check_updates [0] [0] = "Your df is up to date. No update needed." := by decide
example : check_mostna (some [("a", 2), ("b", 5), ("c", 5)]) []
    = Except.ok [("b", 5), ("c", 5)] := rfl
example : check_mostna none [("a", 2)] = Except.error "NameError" := rfl
example :
    mergeLoop (fun _ l => some l) 0 ["u", "v", "u"] [⟨"v", "v"⟩]
      = [⟨"v", "v"⟩, ⟨"u", "u"⟩] := by decide
example :
    (get_tu_acdata (fun _ l => some l) ["u"] []).2 = none := rfl
example :
    update_na ["oem"] "L1" (Except.ok (fun _ => "Acme"))
        ⟨some "id", ["link", "oem"], [⟨"0", [("link", "L1"), ("oem", "N/A")]⟩]⟩
      = Except.ok (⟨some "link", ["oem"], [⟨"L1", [("oem", "Acme")]⟩]⟩, none) := rfl
example :
    drop_nullcols none ⟨["X"], [[("X", true)]]⟩ (3/4) = Except.error "NameError" := rfl

/-! ## Helper lemmas on the merge loop -/

/-- The merge loop preserves duplicate-freedom of the `link` column: a row
is appended only after its link fails the membership test against the
current table. -/
theorem mergeLoop_nodup (sr : Nat → String → Option α) (l : List String) :
    ∀ (ind : Nat) (res : List (MRow α)), (res.map MRow.link).Nodup →
      ((mergeLoop sr ind l res).map MRow.link).Nodup := by
  induction l with
  | nil => intro ind res h; exact h
  | cons lk rest ih =>
      intro ind res h
      rw [mergeLoop]
      cases hmem : (res.map MRow.link).contains lk with
      | true => rw [if_pos rfl]; exact ih (ind + 1) res h
      | false =>
          rw [if_neg Bool.false_ne_true]
          cases hsr : sr ind lk with
          | none => exact ih (ind + 1) res h
          | some d =>
              apply ih (ind + 1)
              rw [List.map_append, List.nodup_append]
              refine ⟨h, List.nodup_singleton _, ?_⟩
              intro a ha hb
              rw [List.map_singleton, List.mem_singleton] at hb
              rw [hb] at ha
              rw [← List.elem_iff] at ha
              have ha' : (List.map MRow.link res).contains lk = true := ha
              rw [hmem] at ha'
              exact Bool.false_ne_true ha'

/-- The merge loop never appends another row for a link already present
in the table: the number of rows carrying that link is unchanged. -/
theorem mergeLoop_countP (sr : Nat → String → Option α) (l : List String) :
    ∀ (ind : Nat) (res : List (MRow α)) (lk : String),
      lk ∈ res.map MRow.link →
      (mergeLoop sr ind l res).countP (fun r => r.link == lk)
        = res.countP (fun r => r.link == lk) := by
  induction l with
  | nil => intro ind res lk h; rfl
  | cons lk' rest ih =>
      intro ind res lk h
      rw [mergeLoop]
      cases hmem : (res.map MRow.link).contains lk' with
      | true => rw [if_pos rfl]; exact ih (ind + 1) res lk h
      | false =>
          rw [if_neg Bool.false_ne_true]
          cases hsr : sr ind lk' with
          | none => exact ih (ind + 1) res lk h
          | some d =>
              have hne : lk' ≠ lk := by
                intro heq
                rw [heq] at hmem
                rw [← List.elem_iff] at h
                have h' : (List.map MRow.link res).contains lk = true := h
                rw [hmem] at h'
                exact Bool.false_ne_true h'
              rw [ih (ind + 1) _ lk
                (by rw [List.map_append]; exact List.mem_append_left _ h)]
              rw [List.countP_append]
              simp [hne]

/-! ## Claim theorems -/

/-- C1: the claim that every field-extraction rule (in particular
`get_devstage` and `get_acextlink`) returns its documented fallback
sentinel instead of raising past its own boundary is violated by the
code. `get_devstage` reads the module-level name `acsoup` (never bound by
the module) outside its `try`, so it raises `NameError` for every
document — and its result never depends on its `soup` parameter at all.
`get_acextlink` raises `UnboundLocalError` whenever the core-data node's
first anchor has a falsy `href` (attribute absent or empty): `weblink` is
never assigned and the `return` sits outside the `try`. -/
theorem devstage_extlink_raise :
    (∀ soup : TUDoc, get_devstage none soup = Except.error "NameError")
    ∧ (∀ (g : Option TUDoc) (s1 s2 : TUDoc), get_devstage g s1 = get_devstage g s2)
    ∧ get_acextlink (Sum.inl (0, ⟨true, some none⟩))
        = Except.error "UnboundLocalError"
    ∧ get_acextlink (Sum.inl (0, ⟨true, some (some "")⟩))
        = Except.error "UnboundLocalError" :=
  ⟨fun _ => rfl, fun _ _ _ => rfl, rfl, rfl⟩

/-- C10: `check_mostna`'s behaviour is independent of its `na_dict`
argument — its body iterates the module-level name `nas` instead — and
with no module-level binding (the modules never create one) it raises
`NameError` for every argument. -/
theorem check_mostna_global :
    (∀ (g : Option (List (String × Nat))) (d1 d2 : List (String × Nat)),
        check_mostna g d1 = check_mostna g d2)
    ∧ (∀ d : List (String × Nat), check_mostna none d = Except.error "NameError") :=
  ⟨fun _ _ _ => rfl, fun _ => rfl⟩

/-- C2: starting from a table whose `link` column has no duplicates, any
run of the two merge operations (`scrape_appendnew` for Site A,
`get_tu_acdata` for Site B — the latter's final local table) leaves the
`link` column duplicate-free, and re-running ingestion over a directory
containing an already-present link never appends a second row for that
link (its row count is unchanged). -/
theorem merge_link_uniqueness {α β : Type}
    (srA : Nat → String → Option α) (srB : Nat → String → Option β)
    (start_ind stop_ind : Nat) (links dirlinks : List String)
    (resA : List (MRow α)) (resB : List (MRow β))
    (hA : (resA.map MRow.link).Nodup) (hB : (resB.map MRow.link).Nodup) :
    ((scrape_appendnew srA start_ind stop_ind links resA).map MRow.link).Nodup
    ∧ (((get_tu_acdata srB dirlinks resB).1).map MRow.link).Nodup
    ∧ (∀ lk ∈ resA.map MRow.link,
        (scrape_appendnew srA start_ind stop_ind links resA).countP
            (fun r => r.link == lk)
          = resA.countP (fun r => r.link == lk))
    ∧ (∀ lk ∈ resB.map MRow.link,
        ((get_tu_acdata srB dirlinks resB).1).countP (fun r => r.link == lk)
          = resB.countP (fun r => r.link == lk)) :=
  ⟨mergeLoop_nodup srA _ 0 resA hA,
   mergeLoop_nodup srB _ 0 resB hB,
   fun lk h => mergeLoop_countP srA _ 0 resA lk h,
   fun lk h => mergeLoop_countP srB _ 0 resB lk h⟩

/-- C2 witness: the uniqueness theorem applied to a concrete table
containing link `"v"` and a directory offering `"u"`, `"v"`. -/
theorem merge_link_uniqueness_witness :
    ((scrape_appendnew (fun _ l => some l) 0 2 ["u", "v"]
        [⟨"v", "x"⟩]).map MRow.link).Nodup
    ∧ (((get_tu_acdata (fun _ l => some l) ["u", "v"]
        [⟨"v", "x"⟩]).1).map MRow.link).Nodup
    ∧ (∀ lk ∈ ([⟨"v", "x"⟩] : List (MRow String)).map MRow.link,
        (scrape_appendnew (fun _ l => some l) 0 2 ["u", "v"]
            [⟨"v", "x"⟩]).countP (fun r => r.link == lk)
          = ([⟨"v", "x"⟩] : List (MRow String)).countP (fun r => r.link == lk))
    ∧ (∀ lk ∈ ([⟨"v", "x"⟩] : List (MRow String)).map MRow.link,
        ((get_tu_acdata (fun _ l => some l) ["u", "v"]
            [⟨"v", "x"⟩]).1).countP (fun r => r.link == lk)
          = ([⟨"v", "x"⟩] : List (MRow String)).countP (fun r => r.link == lk)) :=
  merge_link_uniqueness (fun _ l => some l) (fun _ l => some l) 0 2
    ["u", "v"] ["u", "v"] [⟨"v", "x"⟩] [⟨"v", "x"⟩] (by decide) (by decide)

/-- C3 counterexample: on a document with no `h1` heading, name extraction
fails — `get_acname` returns the sentinel `'N/A'` — yet `get_acstatus`
returns `'active'`, not the `'N/A'` the claim states. -/
theorem acstatus_failure_counterexample :
    get_acname ⟨[], []⟩ = "N/A"
    ∧ get_acstatus ⟨[], []⟩ = "active"
    ∧ get_acstatus ⟨[], []⟩ ≠ "N/A" := by
  refine ⟨rfl, rfl, ?_⟩
  decide

/-- C3 amended: `get_acstatus` returns `'defunct'` when the literal
substring `'defunct'` occurs in `get_acname`'s result and `'active'`
otherwise — including when name extraction fails, since `get_acname`
converts every failure to the sentinel string `'N/A'`, which does not
contain `'defunct'`. The source's `'N/A'` branch is unreachable:
`get_acstatus` never returns `'N/A'`. -/
theorem acstatus_amended (soup : ADoc) :
    (pyIn "defunct" (get_acname soup) = true → get_acstatus soup = "defunct")
    ∧ (pyIn "defunct" (get_acname soup) = false → get_acstatus soup = "active")
    ∧ (soup.h1 = [] → get_acname soup = "N/A" ∧ get_acstatus soup = "active")
    ∧ (get_acstatus soup = "defunct" ∨ get_acstatus soup = "active") := by
  refine ⟨?_, ?_, ?_, ?_⟩
  · intro h
    rw [get_acstatus, if_pos h]
  · intro h
    rw [get_acstatus, if_neg]
    rw [h]
    exact Bool.false_ne_true
  · intro h
    rcases soup with ⟨h1s, ps⟩
    cases h
    exact ⟨rfl, rfl⟩
  · cases hc : pyIn "defunct" (get_acname soup) with
    | true => left; rw [get_acstatus, if_pos hc]
    | false =>
        right
        rw [get_acstatus, if_neg]
        rw [hc]
        exact Bool.false_ne_true

/-- C4: `get_coredata` examines only the first two text-block (`p`)
elements — any two documents agreeing on those agree on the result — and
is exactly the specification's rule `coredataSpec`: the pair (position,
node) for the first of the first two `p` elements containing a bold-label
child, else the sentinel `'error'`. -/
theorem coredata_window_spec (soup : ADoc) :
    get_coredata soup = coredataSpec soup.ptags
    ∧ ∀ qs : ADoc, soup.ptags.take 2 = qs.ptags.take 2 →
        get_coredata soup = get_coredata qs := by
  constructor
  · rcases soup with ⟨h1s, ps⟩
    rcases ps with _ | ⟨p0, _ | ⟨p1, rest⟩⟩
    · rfl
    · show coredataLoop 0 [p0] = coredataSpec [p0]
      rw [coredataLoop, coredataSpec]
      by_cases h : p0.hasStrong = true
      · rw [if_pos h, if_pos h]
      · rw [if_neg h, if_neg h]
        rfl
    · show coredataLoop 0 [p0, p1] = coredataSpec (p0 :: p1 :: rest)
      rw [coredataLoop, coredataSpec]
      by_cases h0 : p0.hasStrong = true
      · rw [if_pos h0, if_pos h0]
      · rw [if_neg h0, if_neg h0, coredataLoop]
        by_cases h1 : p1.hasStrong = true
        · rw [if_pos h1, if_pos h1]
        · rw [if_neg h1, if_neg h1]
          rfl
  · intro qs hq
    show coredataLoop 0 (soup.ptags.take 2) = coredataLoop 0 (qs.ptags.take 2)
    rw [hq]

/-- C5: the claim that every merge operation and the backfill return the
updated table is violated by the code for two of the three functions.
`scrape_appendnew` does return the appended table, but `get_tu_acdata`
and `update_na` have no `return` statement at all: each builds its
updated table and then returns `None` — for `update_na` in direct
contradiction with its own docstring ("Returns: Updated df"). -/
theorem merge_backfill_return_none :
    (∀ (α : Type) (sr : Nat → String → Option α) (links : List String)
        (res : List (MRow α)), (get_tu_acdata sr links res).2 = none)
    ∧ (∀ (cols : List String) (lk : String)
        (scraped : Except String (String → String)) (df t : DFrame)
        (r : Option DFrame),
        update_na cols lk scraped df = Except.ok (t, r) → r = none)
    ∧ scrape_appendnew (fun _ _ => some ()) 0 1 ["L1"] [] = [⟨"L1", ()⟩]
    ∧ update_na ["oem"] "L1" (Except.ok (fun _ => "Acme"))
        ⟨some "link", ["oem"], [⟨"L1", [("oem", "N/A")]⟩]⟩
      = Except.ok (⟨some "link", ["oem"], [⟨"L1", [("oem", "Acme")]⟩]⟩, none) := by
  refine ⟨fun α sr links res => rfl, ?_, rfl, rfl⟩
  intro cols lk scraped df t r h
  unfold update_na at h
  repeat' split at h
  all_goals first
    | exact Except.noConfusion h
    | (injection h with h'
       injection h' with h1 h2
       exact h2.symm)

/-- C6 counterexample: a table whose index is named `'id'` (not keyed by
`'link'`) but which has a `link` column: `update_na` does not fail — it
silently re-keys the table by `link` and proceeds to overwrite the `oem`
cell of the addressed row. -/
theorem update_na_no_failfast_counterexample :
    update_na ["oem"] "L1" (Except.ok (fun _ => "Acme"))
        ⟨some "id", ["link", "oem"], [⟨"0", [("link", "L1"), ("oem", "N/A")]⟩]⟩
      = Except.ok (⟨some "link", ["oem"], [⟨"L1", [("oem", "Acme")]⟩]⟩, none) := rfl

/-- C6 amended: called on a table whose index is not keyed by `'link'`,
`update_na` does not fail fast: when the table has a `link` column it
silently re-keys the table in place (`set_index('link')`) and proceeds
exactly as on the re-keyed table; only when the table also lacks a `link`
column does it raise (pandas `KeyError` out of `set_index`). -/
theorem update_na_silent_reindex (cols : List String) (lk : String)
    (scraped : Except String (String → String)) (df : DFrame) :
    (df.indexName ≠ some "link" → df.columns.contains "link" = true →
        set_index_link df = Except.ok (reKeyed df)
        ∧ (reKeyed df).indexName = some "link"
        ∧ update_na cols lk scraped df = update_na cols lk scraped (reKeyed df))
    ∧ (df.indexName ≠ some "link" → df.columns.contains "link" = false →
        update_na cols lk scraped df = Except.error "KeyError") := by
  constructor
  · intro h hc
    refine ⟨by rw [set_index_link, if_pos hc], rfl, ?_⟩
    show update_na cols lk scraped df
        = update_na cols lk scraped (reKeyed df)
    unfold update_na
    rw [if_pos h, set_index_link, if_pos hc]
    rw [if_neg (by intro hh; exact hh rfl)]
  · intro h hc
    unfold update_na
    rw [if_pos h, set_index_link, if_neg]
    rw [hc]
    exact Bool.false_ne_true

/-- C7: `check_updates` on a directory three entries longer than the
table reports exactly 3 new aircraft, and on equal lengths reports the
up-to-date message (both sites' copies are line-for-line identical and
are embedded once). -/
theorem check_updates_spec {α β : Type} (current : List α) (table : List β) :
    (current.length = table.length + 3 →
        check_updates current table = "NOT up to date. 3 new aircraft exist")
    ∧ (current.length = table.length →
        check_updates current table = "Your df is up to date. No update needed.") := by
  constructor
  · intro h
    rw [check_updates, if_pos (by omega)]
    have hd : current.length - table.length = 3 := by omega
    rw [hd]
    rfl
  · intro h
    rw [check_updates, if_neg (by omega)]

/-- C7 witness: the theorem applied to a three-element directory against
an empty table, and to two equal-length tables. -/
theorem check_updates_spec_witness :
    check_updates [0, 1, 2] ([] : List Nat) = "NOT up to date. 3 new aircraft exist"
    ∧ check_updates ["a"] ["b"] = "Your df is up to date. No update needed." :=
  ⟨(check_updates_spec [0, 1, 2] ([] : List Nat)).1 (by decide),
   (check_updates_spec ["a"] ["b"]).2 (by decide)⟩

/-- C8: `assign_autonlevel` applies its substring tests in order with the
first matching rule winning: the three concrete normalisations of the
specification hold, and every input matching none of the four rules maps
to `'undisclosed'` (the function is total, so it never raises). -/
theorem assign_autonlevel_spec :
    assign_autonlevel "Semi-Autonomous" = "semi autonomous"
    ∧ assign_autonlevel "Piloted, semi-autonomous" = "piloted semi autonomous"
    ∧ assign_autonlevel "foobar" = "undisclosed"
    ∧ ∀ x : String,
        (pyIn "semi" (pyLower x) && !(pyIn "pilot" (pyLower x))) = false →
        (pyIn "autonomous" (pyLower x) && !(pyIn "semi" (pyLower x))) = false →
        (pyIn "pilot" (pyLower x) && pyIn "semi" (pyLower x)) = false →
        pyLower x ≠ "piloted" →
        assign_autonlevel x = "undisclosed" := by
  refine ⟨by decide, by decide, by decide, ?_⟩
  intro x h1 h2 h3 h4
  simp only [assign_autonlevel]
  rw [if_neg (by rw [h1]; exact Bool.false_ne_true)]
  rw [if_neg (by rw [h2]; exact Bool.false_ne_true)]
  rw [if_neg (by rw [h3]; exact Bool.false_ne_true)]
  rw [if_neg h4]

/-- C9: the claim that `drop_nullcols(df, nullperc)` prunes the table
passed as its `df` argument is violated by the code: the body scans and
drops columns of the module-level name `cdf`, never reading `df`, so the
result is identical for any two `df` arguments; with no module-level
`cdf` binding (the module never creates one) it raises `NameError` for
every argument. When a global table is present the threshold logic does
run on it: on `cdf0` (column `X` missing in 80% of rows, `Y` in 60%) with
threshold 3/4, `X` meets the threshold and is dropped and reported while
`Y` does not and is retained — but on the global, not on the `df`
argument (`dfArg0`). -/
theorem drop_nullcols_global_bug :
    (∀ (g : Option NDF) (df df' : NDF) (p : ℚ),
        drop_nullcols g df p = drop_nullcols g df' p)
    ∧ (∀ (df : NDF) (p : ℚ), drop_nullcols none df p = Except.error "NameError")
    ∧ nullcolTest cdf0 (3/4) "X" = true
    ∧ nullcolTest cdf0 (3/4) "Y" = false
    ∧ drop_nullcols (some cdf0) dfArg0 (3/4) = Except.ok (cdf0AfterDrop, ["X"]) := by
  have bX : nullcolTest cdf0 (3/4) "X" = true := by
    rw [nullcolTest, decide_eq_true_eq]
    have h4 : naCount cdf0.rows "X" = 4 := by decide
    have h5 : cdf0.rows.length = 5 := by decide
    rw [h4, h5]
    norm_num
  have bY : nullcolTest cdf0 (3/4) "Y" = false := by
    rw [nullcolTest, decide_eq_false_iff_not]
    have h3 : naCount cdf0.rows "Y" = 3 := by decide
    have h5 : cdf0.rows.length = 5 := by decide
    rw [h3, h5]
    norm_num
  refine ⟨fun g df df' p => rfl, fun df p => rfl, bX, bY, ?_⟩
  simp only [drop_nullcols]
  rw [if_neg (by decide)]
  have hcols : cdf0.cols = ["X", "Y"] := rfl
  rw [hcols]
  simp only [List.filter, bX, bY]
  rfl
